import Mathlib

/-!
Shallow embedding of the `InterviewBot` class of
`src/main/backend/src/core/interview_bot.py` (the "optimized" implementation,
which the spec's design notes designate as the intended design).

Wall-clock readings and LLM outputs are the only external effects of the
per-turn methods; they are passed in explicitly through an `Oracle` record
(one field per distinct call the turn may make), so every method becomes a
pure function of the session state, the user utterance and the oracle.
Machine floats appear only in `time_used_percentage` (modelled as `Rat`;
unused by every claim) and in the difficulty scalar (values are multiples
of 1/2 in [1,5], exactly representable, modelled as `Rat`).
-/

namespace InterviewBotSpec

/-- Python `needle in haystack` test on characters: does `needle` occur as a
contiguous run inside `hay`? (Own recursion, used instead of library infix
predicates so that everything reduces by `decide`.) -/
def startsWithChars : List Char → List Char → Bool
  | _, [] => true
  | [], _ :: _ => false
  | a :: as, b :: bs => a == b && startsWithChars as bs

/-- Helper for `pyInStr`: scan every suffix of the haystack. -/
def containsChars (hay needle : List Char) : Bool :=
  match hay with
  | [] => needle.isEmpty
  | _ :: rest => startsWithChars hay needle || containsChars rest needle

/-- Python `needle in hay` for strings (substring membership). -/
def pyInStr (needle hay : String) : Bool :=
  containsChars hay.toList needle.toList

/-- Python truthiness of an `Optional[str]`: `None` and `""` are falsy. -/
def pyTruthyOptStr : Option String → Bool
  | none => false
  | some s => s.length != 0

/-- Python `str.upper()` (character-wise, which agrees with CPython on the
ASCII strings involved). -/
def pyToUpper (s : String) : String := String.mk (s.toList.map Char.toUpper)

/-- Python `str.lower()` (character-wise). -/
def pyToLower (s : String) : String := String.mk (s.toList.map Char.toLower)

/-- Python `str.strip()`: remove leading and trailing whitespace. -/
def pyStrip (s : String) : String :=
  String.mk
    (((s.toList.dropWhile Char.isWhitespace).reverse.dropWhile Char.isWhitespace).reverse)

/-- Python `str.title()` for the single lowercase words it is applied to
("bot", "user", "system"): capitalize the first character. -/
def pyTitle (s : String) : String :=
  match s.toList with
  | [] => ""
  | c :: cs => String.mk (c.toUpper :: cs)

/-- Python `len(s.split())`: the number of maximal non-whitespace runs. -/
def wordCountAux : List Char → Bool → Nat
  | [], _ => 0
  | c :: cs, inWord =>
      if c.isWhitespace then wordCountAux cs false
      else (if inWord then 0 else 1) + wordCountAux cs true

/-- Python `len(answer.split())` (the word count of the answer). -/
def wordCount (s : String) : Nat := wordCountAux s.toList false

/-- Which one-shot time warnings have been sent (`self.time_warnings_sent`,
a Python set holding at most the strings "5_min", "2_min", "time_up"). -/
structure TimeWarningsSent where
  sent5 : Bool
  sent2 : Bool
  sentUp : Bool
deriving Repr, DecidableEq

/-- Return value of `_get_time_status` (a dict in the source). -/
structure TimeStatus where
  elapsed_minutes : Nat
  remaining_minutes : Nat
  time_used_percentage : Rat
  warnings : List String
deriving Repr, DecidableEq

/-- `_get_time_status` (lines 273-299): elapsed wall-clock minutes are passed
in (the source computes them from `time.time() - self.start_time`);
`remaining = max(0, duration - elapsed)` is Nat subtraction. The warning
branches form an `if/elif/elif` chain, so at most one warning is emitted per
call, and the later thresholds are reachable only when the earlier flags are
already set. -/
def getTimeStatus (elapsed_minutes duration : Nat) (sent : TimeWarningsSent) :
    TimeStatus × TimeWarningsSent :=
  let remaining_minutes := duration - elapsed_minutes
  let time_used_percentage : Rat := (elapsed_minutes : Rat) / (duration : Rat) * 100
  if remaining_minutes ≤ 5 ∧ sent.sent5 = false then
    (⟨elapsed_minutes, remaining_minutes, time_used_percentage,
      ["5 minutes remaining"]⟩, { sent with sent5 := true })
  else if remaining_minutes ≤ 2 ∧ sent.sent2 = false then
    (⟨elapsed_minutes, remaining_minutes, time_used_percentage,
      ["2 minutes remaining - please conclude your thoughts"]⟩, { sent with sent2 := true })
  else if remaining_minutes ≤ 0 ∧ sent.sentUp = false then
    (⟨elapsed_minutes, remaining_minutes, time_used_percentage,
      ["TIME_UP_SIGNAL"]⟩, { sent with sentUp := true })
  else
    (⟨elapsed_minutes, remaining_minutes, time_used_percentage, []⟩, sent)

/-- The `ValidationState` enum of the source. -/
inductive ValidationState where
  | not_started
  | in_progress
  | completed
  | failed
deriving Repr, DecidableEq

/-- A parsed LLM validation dict, one `Option` per key the handlers read
(`None` = key absent, which is how `_parse_llm_json_response`'s empty dict
`{}` on parse failure looks to every `.get`). -/
structure ParsedValidation where
  validation_status : Option String
  confidence_score : Option Rat
  feedback : Option String
  needs_clarification : Option Bool
  suggested_followup : Option String
deriving Repr, DecidableEq

/-- The empty dict `{}`: what `_parse_llm_json_response` returns when the
model output holds no parseable JSON. -/
def emptyParsedValidation : ParsedValidation :=
  ⟨none, none, none, none, none⟩

/-- Parsed LLM output of the authenticity check. -/
structure AuthParsed where
  status : Option String
  follow_up_question : Option String
deriving Repr, DecidableEq

/-- Parse failure for the authenticity check: the empty dict. -/
def emptyAuthParsed : AuthParsed := ⟨none, none⟩

/-- Parsed LLM output of next-question refinement. `none` models the falsy
empty dict (the source's `if not parsed:`); `some p` a non-empty dict whose
three load-bearing keys may still be absent. -/
structure NextQParsed where
  decision : Option String
  question : Option String
  new_topic : Option String
deriving Repr, DecidableEq

/-- One element of the `assessed_competencies` list the competency-coverage
LLM call returns: a JSON object (whose "competency" key may be absent), a
bare string, or anything else (skipped by the source's isinstance checks). -/
inductive AssessedItem where
  | dict (competency : Option String)
  | str (s : String)
  | other
deriving Repr, DecidableEq

/-- A `{question, answer, validation}` record (pre-interview and
verification answer lists). -/
structure QARecord where
  question : String
  answer : String
  validation : ParsedValidation
deriving Repr, DecidableEq

/-- The mutable session state of the optimized `InterviewBot` (the fields
its per-turn methods read or write). `verification_answers` is an `Option`
because `__init__` never assigns that attribute: `none` models the missing
attribute, and reading it raises `AttributeError` in the source.
`completed_competencies` is a Python set of strings, modelled as a
duplicate-free insertion list. -/
structure BotState where
  interview_duration_minutes : Nat
  time_warnings_sent : TimeWarningsSent
  interview_log : List (String × String)
  conversation_history : List String
  current_topic : String
  current_question : String
  interview_ended : Bool
  target_competencies : List String
  completed_competencies : List String
  difficulty_level : Rat
  pre_interview_questions : List String
  pre_interview_answers : List QARecord
  validation_state : ValidationState
  validation_attempts : Nat
  max_validation_attempts : Nat
  verification_questions : List String
  verification_answers : Option (List QARecord)
  verification_step : Nat
  in_verification : Bool
deriving Repr, DecidableEq

/-- External inputs of one `process_user_answer` turn: the wall-clock
reading and the parsed output (or raised exception) of each LLM call the
turn may issue. -/
structure Oracle where
  elapsed_minutes : Nat
  preValidationParsed : ParsedValidation
  verifValidationParsed : ParsedValidation
  authRaises : Bool
  authParsed : AuthParsed
  assessRaises : Bool
  assessedParsed : List AssessedItem
  adjustRaises : Bool
  genRaises : Bool
  nextQParsed : Option NextQParsed
deriving Repr, DecidableEq

/-- How many times the turn invoked each of the four main-interview
sub-operations (instrumentation for the skip-path claim). -/
structure Trace where
  authenticityCalls : Nat
  competencyCalls : Nat
  difficultyCalls : Nat
  nextQuestionCalls : Nat
deriving Repr, DecidableEq

/-- No sub-operation invoked. -/
def noCalls : Trace := ⟨0, 0, 0, 0⟩

/-- `_add_to_history` (lines 258-265): append to `interview_log` and to the
windowed `conversation_history` (kept to its last 12 entries). `role.title()`
is `String.capitalize` for the single-word roles used ("bot", "user"). -/
def addToHistory (st : BotState) (role content : String) : BotState :=
  let hist := st.conversation_history ++ [pyTitle role ++ ": " ++ content]
  { st with
    interview_log := st.interview_log ++ [(role, content)]
    conversation_history := if hist.length > 12 then hist.drop (hist.length - 12) else hist }

/-- The fixed skip-phrase list of `check_skip_answer` (lines 478-483). -/
def skip_phrases : List String :=
  ["i don't know", "i do not know", "don't know", "not sure",
   "no idea", "can't answer", "cannot answer", "skip", "pass",
   "i'm not sure", "im not sure", "not familiar", "repeat that",
   "can you repeat", "what was the question"]

/-- `check_skip_answer` (lines 477-485): case-insensitive, whitespace-trimmed
substring membership against the fixed phrase set. -/
def checkSkipAnswer (answer : String) : Bool :=
  let answer_lower := pyStrip (pyToLower answer)
  skip_phrases.any fun phrase => pyInStr phrase answer_lower

/-- `_validate_pre_interview_answer` (lines 135-160): the safe-default merge
is commented out in the source; the method returns `{**parsed}`, i.e. the
parsed dict unchanged (the empty dict on parse failure). -/
def validatePreInterviewAnswer (parsed : ParsedValidation) : ParsedValidation :=
  parsed

/-- `_validate_verification_answer` (lines 183-198): `{**default_response,
**parsed}` — every key absent from the parsed dict falls back to the
hard-coded default. -/
def validateVerificationAnswer (parsed : ParsedValidation) : ParsedValidation :=
  ⟨some (parsed.validation_status.getD "VAGUE"),
   some (parsed.confidence_score.getD (1 / 2)),
   some (parsed.feedback.getD "Unable to validate answer."),
   some (parsed.needs_clarification.getD true),
   some (parsed.suggested_followup.getD "Can you elaborate on that?")⟩

/-- `_check_answer_authenticity` (lines 487-514): status defaults to
"AUTHENTIC" and is upper-cased; the GENERIC branch needs a truthy follow-up;
any exception inside the try block falls back to ("AUTHENTIC", None). -/
def checkAnswerAuthenticity (raises : Bool) (parsed : AuthParsed) :
    String × Option String :=
  if raises then ("AUTHENTIC", none)
  else
    let status := pyToUpper (parsed.status.getD "AUTHENTIC")
    if status = "GENERIC" ∧ pyTruthyOptStr parsed.follow_up_question = true then
      ("GENERIC", parsed.follow_up_question)
    else
      ("AUTHENTIC", none)

/-- Python `set.add` on the duplicate-free list modelling
`completed_competencies`. -/
def insertIfAbsent (l : List String) (x : String) : List String :=
  if x ∈ l then l else l ++ [x]

/-- One iteration of the update loop of `_assess_competency_coverage`
(lines 542-548): a dict item contributes its "competency" value, a string
item itself, anything else is skipped; a name is added only when it is a
member of the `remaining` list computed before the loop. -/
def assessStep (remaining acc : List String) : AssessedItem → List String
  | .dict (some name) => if name ∈ remaining then insertIfAbsent acc name else acc
  | .dict none => acc
  | .str s => if s ∈ remaining then insertIfAbsent acc s else acc
  | .other => acc

/-- The update loop of `_assess_competency_coverage` (lines 542-548). -/
def assessFold (remaining completed : List String) (assessed : List AssessedItem) :
    List String :=
  assessed.foldl (assessStep remaining) completed

/-- `_assess_competency_coverage` (lines 516-553): no-op when every target
competency is already completed; otherwise fold the LLM's assessed items into
the completed set. The surrounding try/except swallows any exception, leaving
the state unchanged (modelled as raising before any update). -/
def assessCompetencyCoverage (st : BotState) (o : Oracle) : BotState :=
  if o.assessRaises then st
  else
    let remaining := st.target_competencies.dedup.filter
      fun c => decide (c ∉ st.completed_competencies)
    if remaining.isEmpty then st
    else { st with
      completed_competencies := assessFold remaining st.completed_competencies o.assessedParsed }

/-- The concrete-example markers of `_adjust_difficulty_level` (line 562). -/
def example_markers : List String :=
  ["example", "for instance", "specifically", "when i"]

/-- Initial difficulty (`self.difficulty_level = 1`, line 75). -/
def initialDifficultyLevel : Rat := 1

/-- `_adjust_difficulty_level` (lines 555-576): rule-based ±0.5 step guarded
at the endpoints, then clamped into [1,5] by `max(1, min(5, ·))`; the
try/except leaves the level unchanged on an exception. -/
def adjustDifficultyLevel (raises : Bool) (authenticity_status answer : String)
    (difficulty_level : Rat) : Rat :=
  if raises then difficulty_level
  else
    let answer_length := wordCount answer
    let contains_examples := example_markers.any fun w => pyInStr w (pyToLower answer)
    let d :=
      if authenticity_status = "AUTHENTIC" ∧ answer_length > 30 ∧ contains_examples = true then
        if difficulty_level < 5 then difficulty_level + 1 / 2 else difficulty_level
      else if answer_length < 15 ∨ pyInStr "not sure" (pyToLower answer) = true then
        if difficulty_level > 1 then difficulty_level - 1 / 2 else difficulty_level
      else difficulty_level
    max 1 (min 5 d)

/-- `_generate_next_question` (lines 675-730): recompute the time status
(second `_get_time_status` call of the turn — it also mutates the one-shot
warning flags); hard-stop when no minutes remain; otherwise refine the
strategy candidate through the decision LLM call, defaulting the decision to
END_INTERVIEW, overriding any non-END decision when fewer than 2 minutes
remain, and failing safe (terminate with a canned line) on an empty parse or
an exception. -/
def generateNextQuestion (st : BotState) (o : Oracle) : BotState × String :=
  let tsPair := getTimeStatus o.elapsed_minutes st.interview_duration_minutes st.time_warnings_sent
  let time_status := tsPair.1
  let st := { st with time_warnings_sent := tsPair.2 }
  if time_status.remaining_minutes ≤ 0 then
    ({ st with interview_ended := true },
     "Thank you for your time. We've reached the end of our allocated time. This concludes our interview.")
  else if o.genRaises then
    ({ st with interview_ended := true },
     "Thank you for your time. We'll conclude our session here.")
  else
    match o.nextQParsed with
    | none =>
        ({ st with interview_ended := true },
         "I appreciate your time. We'll conclude the interview here. Thank you.")
    | some parsed =>
        let decision := pyToUpper (parsed.decision.getD "END_INTERVIEW")
        let question := parsed.question.getD "Thank you. That's all I have."
        let st := { st with current_topic := parsed.new_topic.getD st.current_topic }
        let dq :=
          if time_status.remaining_minutes < 2 ∧ decision ≠ "END_INTERVIEW" then
            ("END_INTERVIEW", "We're nearly out of time. Thank you for this discussion.")
          else (decision, question)
        let st := if dq.1 = "END_INTERVIEW" then { st with interview_ended := true } else st
        let st := { st with current_question := dq.2 }
        let st := addToHistory st "bot" dq.2
        (st, dq.2)

/-- `_generate_next_question_with_time_status` (lines 469-475): prepend the
warnings of the time status computed at the top of the turn. -/
def generateNextQuestionWithTimeStatus (st : BotState) (o : Oracle)
    (time_status : TimeStatus) : BotState × String :=
  let r := generateNextQuestion st o
  if time_status.warnings ≠ [] then
    (r.1, String.intercalate "\n\n" time_status.warnings ++ "\n\n" ++ r.2)
  else r

/-- `_proceed_to_main_interview` (lines 324-341): emit the transition
preamble, then either the first verification question or a generated first
main question. (`verification_questions[0]` presupposes the list is
non-empty, which `in_verification` guarantees for states built by
`__init__`; modelled with `getD`.) -/
def proceedToMainInterview (st : BotState) (o : Oracle) : BotState × String × Trace :=
  let transition_message :=
    "Thank you for those initial answers. Now let's move to the main interview questions.\n\nRemember to provide specific examples from your experience where possible."
  let st := addToHistory st "bot" transition_message
  if st.in_verification = true then
    let first_question := st.verification_questions.getD 0 ""
    let st := { st with current_question := first_question }
    let st := addToHistory st "bot" first_question
    (st, transition_message ++ "\n\n" ++ first_question, noCalls)
  else
    let r := generateNextQuestion st o
    (r.1, transition_message ++ "\n\n" ++ r.2, { noCalls with nextQuestionCalls := 1 })

/-- `_handle_pre_interview_validation` (lines 382-434). The current question
index is `len(self.pre_interview_answers)`, and the answered record is
appended unconditionally before the clarification branch — so the index
advances on every call, clarification or not. -/
def handlePreInterviewValidation (st : BotState) (answer : String) (o : Oracle) :
    BotState × String × Trace :=
  let current_question_index := st.pre_interview_answers.length
  if current_question_index ≥ st.pre_interview_questions.length then
    let st := { st with validation_state := ValidationState.completed }
    proceedToMainInterview st o
  else
    let question := st.pre_interview_questions.getD current_question_index ""
    let validation_result := validatePreInterviewAnswer o.preValidationParsed
    let st := { st with
      pre_interview_answers :=
        st.pre_interview_answers ++ [QARecord.mk question answer validation_result] }
    if validation_result.needs_clarification.getD false = true ∧
        st.validation_attempts < st.max_validation_attempts then
      let st := { st with validation_attempts := st.validation_attempts + 1 }
      let follow_up := validation_result.suggested_followup.getD
        "Could you please provide more specific details about that?"
      let st := { st with current_question := follow_up }
      let st := addToHistory st "bot" follow_up
      (st, follow_up, noCalls)
    else
      let st := { st with validation_attempts := 0 }
      if current_question_index + 1 < st.pre_interview_questions.length then
        let next_question := st.pre_interview_questions.getD (current_question_index + 1) ""
        let st := { st with current_question := next_question }
        let st := addToHistory st "bot" next_question
        let good_status : Bool :=
          match validation_result.validation_status with
          | some s => s == "COMPREHENSIVE" || s == "ADEQUATE"
          | none => false
        let encouragement :=
          if good_status = true then "Thank you for that detailed answer. "
          else "Thank you. "
        (st, encouragement ++ "Next question: " ++ next_question, noCalls)
      else
        let st := { st with validation_state := ValidationState.completed }
        proceedToMainInterview st o

/-- `_handle_verification_phase` (lines 436-467). The source appends to
`self.verification_answers`, an attribute `__init__` never assigns: when the
state carries no such attribute (`none`) the call raises `AttributeError`. -/
def handleVerificationPhase (st : BotState) (answer : String) (o : Oracle) :
    Except String (BotState × String × Trace) :=
  let current_question := st.verification_questions.getD st.verification_step ""
  let validation_result := validateVerificationAnswer o.verifValidationParsed
  match st.verification_answers with
  | none => Except.error "AttributeError: verification_answers"
  | some answers =>
    let st := { st with
      verification_answers :=
        some (answers ++ [QARecord.mk current_question answer validation_result]) }
    if validation_result.needs_clarification.getD false = true ∧
        st.validation_attempts < st.max_validation_attempts then
      let st := { st with validation_attempts := st.validation_attempts + 1 }
      let follow_up := validation_result.suggested_followup.getD
        "Could you elaborate on that for me?"
      let st := { st with current_question := follow_up }
      let st := addToHistory st "bot" follow_up
      Except.ok (st, follow_up, noCalls)
    else
      let st := { st with validation_attempts := 0, verification_step := st.verification_step + 1 }
      if st.verification_step < st.verification_questions.length then
        let next_question := st.verification_questions.getD st.verification_step ""
        let st := { st with current_question := next_question }
        let st := addToHistory st "bot" next_question
        Except.ok (st, next_question, noCalls)
      else
        let st := { st with in_verification := false }
        let r := generateNextQuestion st o
        Except.ok (r.1, r.2, { noCalls with nextQuestionCalls := 1 })

/-- `process_user_answer` (lines 343-380): the per-turn transition function.
Returns the new state, the bot's reply (or the terminal sentinel
"END_OF_INTERVIEW"), and the trace of main-interview sub-operations invoked;
`Except.error` models a propagated Python exception. -/
def processUserAnswer (st : BotState) (answer : String) (o : Oracle) :
    Except String (BotState × String × Trace) :=
  if st.interview_ended = true ∨ answer = "TIME_UP_SIGNAL" then
    Except.ok ({ st with interview_ended := true }, "END_OF_INTERVIEW", noCalls)
  else
    let st := addToHistory st "user" answer
    let tsPair := getTimeStatus o.elapsed_minutes st.interview_duration_minutes st.time_warnings_sent
    let time_status := tsPair.1
    let st := { st with time_warnings_sent := tsPair.2 }
    if "TIME_UP_SIGNAL" ∈ time_status.warnings then
      Except.ok ({ st with interview_ended := true }, "END_OF_INTERVIEW", noCalls)
    else if st.validation_state = ValidationState.in_progress then
      Except.ok (handlePreInterviewValidation st answer o)
    else if st.in_verification = true then
      handleVerificationPhase st answer o
    else if checkSkipAnswer answer = true then
      let r := generateNextQuestionWithTimeStatus st o time_status
      Except.ok (r.1, r.2, { noCalls with nextQuestionCalls := 1 })
    else
      let auth := checkAnswerAuthenticity o.authRaises o.authParsed
      let st := assessCompetencyCoverage st o
      let st := { st with
        difficulty_level := adjustDifficultyLevel o.adjustRaises auth.1 answer st.difficulty_level }
      if auth.1 = "GENERIC" ∧ pyTruthyOptStr auth.2 = true then
        let follow_up := auth.2.getD ""
        let st := { st with current_question := follow_up }
        let st := addToHistory st "bot" follow_up
        Except.ok (st, follow_up, ⟨1, 1, 1, 0⟩)
      else
        let r := generateNextQuestionWithTimeStatus st o time_status
        Except.ok (r.1, r.2, ⟨1, 1, 1, 1⟩)

/-- Iterate `process_user_answer` over a list of (utterance, oracle) turns;
a raised exception leaves the state as it was (the transport stops calling). -/
def runSession (st : BotState) (turns : List (String × Oracle)) : BotState :=
  turns.foldl
    (fun s turn =>
      match processUserAnswer s turn.1 turn.2 with
      | Except.ok r => r.1
      | Except.error _ => s)
    st

/-- `_extract_context` (lines 91-103): the returned blob always begins with
the non-empty header line. `some docs` models a store exposing
`docstore._dict`; `none` one that does not, in which case the `else` branch
references the undefined name `e` (NameError), the `except` catches it and
appends the fallback sentence. -/
def extractContext (db : Option (List String)) (db_type : String) : String :=
  let header := "\n--- " ++ db_type ++ " CONTEXT ---\n"
  match db with
  | some docs => header ++ String.intercalate "\n" docs
  | none => header ++ "No specific information could be extracted."

/-- Python truthiness of a string: non-empty. -/
def pyTruthyStr (s : String) : Bool := s.length != 0

/-- The attribute names `__init__` (lines 37-50) assigns before the
strategy-registration block, in source order. -/
def initAttrsBeforeStrategies : List String :=
  ["llm", "jd_db", "resume_db", "interview_duration_minutes", "start_time",
   "time_warnings_sent", "jd_context", "resume_context", "question_generators"]

/-- The attribute names the remainder of `__init__` (lines 61-87) would
assign if execution reached it. `verification_answers` is nowhere among
them: no statement of the class ever assigns that attribute. -/
def initAttrsTail : List String :=
  ["question_types", "interview_log", "conversation_history", "current_topic",
   "current_question", "interview_ended", "target_competencies",
   "completed_competencies", "difficulty_level", "pre_interview_questions",
   "pre_interview_answers", "validation_state", "validation_attempts",
   "max_validation_attempts", "verification_questions", "verification_step",
   "in_verification"]

/-- Every attribute name assigned anywhere in `__init__`. -/
def initAssignedAttrs : List String := initAttrsBeforeStrategies ++ initAttrsTail

/-- `InterviewBot.__init__` (lines 37-89) as a trace over the attribute names
it assigns; an attribute read checks membership among the names assigned so
far, and `Except.error` models a raised `AttributeError`. Registering the
SITUATIONAL/JD/RAG/RESUME strategies assigns dict items, not attributes; the
guard `if self.resume_topics:` (line 55) inside the `if self.jd_context:`
branch (line 52) reads an attribute that is never assigned. -/
def interviewBotInit (jd_db resume_db : Option (List String)) :
    Except String (List String) :=
  let jd_context := extractContext jd_db "JD"
  let resume_context := extractContext resume_db "Resume"
  let attrs := initAttrsBeforeStrategies
  if pyTruthyStr jd_context = true then
    -- registers the SITUATIONAL and JD strategies, then evaluates
    -- `if self.resume_topics:`
    if "resume_topics" ∈ attrs then
      Except.ok (attrs ++ initAttrsTail)
    else
      Except.error "AttributeError: resume_topics"
  else
    -- hypothetical continuation ending at `self.in_verification = ...`;
    -- `resume_context` feeds only the RESUME item registration here
    if pyTruthyStr resume_context = true then Except.ok (attrs ++ initAttrsTail)
    else Except.ok (attrs ++ initAttrsTail)

/-- The structured record `save_interview_log` (lines 732-757) serializes,
field for field (`session_start_time`, a wall-clock float the model does not
track, is abstracted away). -/
structure InterviewLogRecord where
  duration_minutes : Nat
  target_competencies : List String
  completed_competencies : List String
  validation_state : ValidationState
  pre_interview_questions : List String
  pre_interview_answers : List QARecord
  verification_questions : List String
  verification_answers : List QARecord
  transcript : List (String × String)
deriving Repr, DecidableEq

/-- `save_interview_log` (lines 732-757): building the metadata reads
`self.verification_answers` (line 749); when the state carries no such
attribute (`none`, as left by `__init__`) the method raises
`AttributeError` instead of producing the record. -/
def saveInterviewLog (st : BotState) : Except String InterviewLogRecord :=
  match st.verification_answers with
  | none => Except.error "AttributeError: verification_answers"
  | some va =>
      Except.ok ⟨st.interview_duration_minutes, st.target_competencies,
        st.completed_competencies, st.validation_state,
        st.pre_interview_questions, st.pre_interview_answers,
        st.verification_questions, va, st.interview_log⟩

/-! ### Helper lemmas -/

@[simp] theorem addToHistory_interview_duration_minutes (st : BotState) (r c : String) :
    (addToHistory st r c).interview_duration_minutes = st.interview_duration_minutes := rfl

@[simp] theorem addToHistory_time_warnings_sent (st : BotState) (r c : String) :
    (addToHistory st r c).time_warnings_sent = st.time_warnings_sent := rfl

@[simp] theorem addToHistory_interview_ended (st : BotState) (r c : String) :
    (addToHistory st r c).interview_ended = st.interview_ended := rfl

@[simp] theorem addToHistory_validation_state (st : BotState) (r c : String) :
    (addToHistory st r c).validation_state = st.validation_state := rfl

@[simp] theorem addToHistory_in_verification (st : BotState) (r c : String) :
    (addToHistory st r c).in_verification = st.in_verification := rfl

@[simp] theorem addToHistory_target_competencies (st : BotState) (r c : String) :
    (addToHistory st r c).target_competencies = st.target_competencies := rfl

@[simp] theorem addToHistory_completed_competencies (st : BotState) (r c : String) :
    (addToHistory st r c).completed_competencies = st.completed_competencies := rfl

theorem getTimeStatus_fst_remaining (e d : Nat) (s : TimeWarningsSent) :
    (getTimeStatus e d s).1.remaining_minutes = d - e := by
  simp only [getTimeStatus]
  split_ifs <;> rfl

theorem extractContext_truthy (db : Option (List String)) (db_type : String) :
    pyTruthyStr (extractContext db db_type) = true := by
  have h5 : ("\n--- " : String).length = 5 := rfl
  cases db <;>
    · simp only [extractContext, pyTruthyStr]
      rw [bne_iff_ne]
      simp only [String.length_append]
      omega

/-! ### C10 -/

/-- C10: for every pair of input databases, `InterviewBot.__init__` raises
`AttributeError` before completing: `jd_context` always begins with the
non-empty `_extract_context` header, so the strategy-registration branch is
taken and reads `self.resume_topics`, which nothing ever assigns. -/
theorem C10_init_always_raises (jd_db resume_db : Option (List String)) :
    interviewBotInit jd_db resume_db = Except.error "AttributeError: resume_topics" := by
  simp only [interviewBotInit]
  rw [if_pos (extractContext_truthy jd_db "JD"), if_neg (by decide)]

/-! ### C9 -/

/-- The session state as `__init__`'s own assignments leave it (granting,
counterfactually, that the `resume_topics` read did not abort): in
particular `verification_answers` is absent. -/
def freshSessionState : BotState :=
  ⟨30, ⟨false, false, false⟩, [], [], "Opening", "", false, [], [], 1,
   [], [], ValidationState.not_started, 0, 2, [], none, 0, false⟩

/-- C9: exporting the transcript cannot succeed — `save_interview_log` reads
`self.verification_answers`, an attribute absent from every name `__init__`
assigns, so the export raises `AttributeError` instead of producing the
structured record. -/
theorem C9_export_raises :
    "verification_answers" ∉ initAssignedAttrs ∧
    freshSessionState.verification_answers = none ∧
    saveInterviewLog freshSessionState =
      Except.error "AttributeError: verification_answers" := by
  refine ⟨by decide, rfl, rfl⟩

/-! ### C8 -/

/-- Concrete pre-validation session: two pre-interview questions, first
about to be answered. -/
def preValidationState : BotState :=
  ⟨30, ⟨false, false, false⟩, [], [], "Opening", "Q0", false, [], [], 1,
   ["Q0", "Q1"], [], ValidationState.in_progress, 0, 2, [], none, 0, false⟩

/-- Oracle for a turn whose pre-interview validation LLM output fails to
parse (`_parse_llm_json_response` returns the empty dict). -/
def parseFailureOracle : Oracle :=
  ⟨0, emptyParsedValidation, emptyParsedValidation, false, emptyAuthParsed,
   false, [], false, false, none⟩

/-- C8 counterexample: on a JSON parse failure, pre-interview answer
validation returns the empty dict unchanged — `needs_clarification` is
absent (read as False) and there is no follow-up — so the handler advances
to the next question instead of asking a clarification: the claimed
"needs clarification with a generic follow-up" default does not exist in
the code (it is commented out). -/
theorem C8_counterexample :
    validatePreInterviewAnswer emptyParsedValidation = emptyParsedValidation ∧
    emptyParsedValidation.needs_clarification.getD false = false ∧
    emptyParsedValidation.suggested_followup = none ∧
    (processUserAnswer preValidationState "A0" parseFailureOracle).toOption.map
        (fun r => (r.2.1, r.1.validation_attempts)) =
      some ("Thank you. Next question: Q1", 0) := by
  refine ⟨rfl, rfl, rfl, rfl⟩

/-- C8 amended: on unparseable model output the authenticity check returns
("AUTHENTIC", no follow-up) without raising, and pre-interview validation
returns the parsed dict unchanged — on parse failure the empty dict, which
the handler reads as not needing clarification, so it advances without
raising; the needs-clarification-with-generic-follow-up default exists only
in the verification-phase validator. -/
theorem C8_amended_safe_defaults :
    (∀ raises : Bool, checkAnswerAuthenticity raises emptyAuthParsed = ("AUTHENTIC", none)) ∧
    (∀ parsed : ParsedValidation, validatePreInterviewAnswer parsed = parsed) ∧
    validateVerificationAnswer emptyParsedValidation =
      ⟨some "VAGUE", some (1 / 2), some "Unable to validate answer.", some true,
       some "Can you elaborate on that?"⟩ := by
  refine ⟨fun raises => ?_, fun _ => rfl, rfl⟩
  cases raises <;> rfl

/-! ### C5 -/

/-- One difficulty-adjustment step stays inside [1,5] when it starts there:
either the try/except leaves the level unchanged, or the result is clamped
by `max(1, min(5, d))`. -/
theorem adjustDifficultyLevel_bounds (raises : Bool) (s a : String) (d : Rat)
    (h1 : 1 ≤ d) (h5 : d ≤ 5) :
    1 ≤ adjustDifficultyLevel raises s a d ∧ adjustDifficultyLevel raises s a d ≤ 5 := by
  unfold adjustDifficultyLevel
  split_ifs
  · exact ⟨h1, h5⟩
  all_goals exact ⟨le_max_left 1 _, max_le (by norm_num) (min_le_left 5 _)⟩

/-- C5: the difficulty level is initialized at 1, the minimum of [1,5], and
under every finite sequence of `_adjust_difficulty_level` calls (arbitrary
authenticity statuses, answer strings, and raised exceptions) it never
leaves [1,5]. -/
theorem C5_difficulty_never_leaves_interval :
    initialDifficultyLevel = 1 ∧
    ∀ turns : List (Bool × String × String),
      1 ≤ turns.foldl (fun d t => adjustDifficultyLevel t.1 t.2.1 t.2.2 d)
            initialDifficultyLevel ∧
      turns.foldl (fun d t => adjustDifficultyLevel t.1 t.2.1 t.2.2 d)
            initialDifficultyLevel ≤ 5 := by
  refine ⟨rfl, fun turns => ?_⟩
  have key : ∀ (l : List (Bool × String × String)) (d : Rat), 1 ≤ d → d ≤ 5 →
      1 ≤ l.foldl (fun d t => adjustDifficultyLevel t.1 t.2.1 t.2.2 d) d ∧
      l.foldl (fun d t => adjustDifficultyLevel t.1 t.2.1 t.2.2 d) d ≤ 5 := by
    intro l
    induction l with
    | nil => exact fun d h1 h5 => ⟨h1, h5⟩
    | cons t rest ih =>
        intro d h1 h5
        have h := adjustDifficultyLevel_bounds t.1 t.2.1 t.2.2 d h1 h5
        exact ih _ h.1 h.2
  exact key turns initialDifficultyLevel (by norm_num [initialDifficultyLevel])
    (by norm_num [initialDifficultyLevel])

/-! ### C1 -/

/-- C1: once the termination flag is set, `process_user_answer` returns the
terminal sentinel "END_OF_INTERVIEW" with the state — flag included — left
unchanged, for every input and oracle; hence the terminal state is absorbing
and the call idempotent under arbitrary subsequent inputs. The same holds
when the input is the special "TIME_UP_SIGNAL" string: the sentinel is
returned and the flag is set. -/
theorem C1_terminal_sentinel_absorbing (st : BotState) (answer : String) (o : Oracle) :
    (st.interview_ended = true →
      processUserAnswer st answer o = Except.ok (st, "END_OF_INTERVIEW", noCalls)) ∧
    (answer = "TIME_UP_SIGNAL" →
      processUserAnswer st answer o =
        Except.ok ({ st with interview_ended := true }, "END_OF_INTERVIEW", noCalls) ∧
      ({ st with interview_ended := true } : BotState).interview_ended = true) := by
  constructor
  · intro h
    have heta : ({ st with interview_ended := true } : BotState) = st := by
      cases st
      simp_all
    simp only [processUserAnswer]
    rw [if_pos (Or.inl h), heta]
  · intro h
    refine ⟨?_, rfl⟩
    simp only [processUserAnswer]
    rw [if_pos (Or.inr h)]

/-- A concrete terminated session (flag set). -/
def endedSessionState : BotState :=
  ⟨30, ⟨true, true, true⟩, [], [], "Closing", "", true, ["Communication"],
   ["Communication"], 3, [], [], ValidationState.completed, 0, 2, [], none, 0, false⟩

theorem C1_terminal_sentinel_absorbing_witness :
    endedSessionState.interview_ended = true ∧
    processUserAnswer endedSessionState "one more thing" parseFailureOracle =
      Except.ok (endedSessionState, "END_OF_INTERVIEW", noCalls) ∧
    processUserAnswer endedSessionState "TIME_UP_SIGNAL" parseFailureOracle =
      Except.ok ({ endedSessionState with interview_ended := true },
        "END_OF_INTERVIEW", noCalls) :=
  ⟨rfl,
   (C1_terminal_sentinel_absorbing endedSessionState "one more thing" parseFailureOracle).1 rfl,
   ((C1_terminal_sentinel_absorbing endedSessionState "TIME_UP_SIGNAL" parseFailureOracle).2 rfl).1⟩

/-! ### C6 -/

/-- Oracle whose pre-interview validation result asks for clarification with
the follow-up "F0". -/
def clarifyingOracle : Oracle :=
  ⟨0, ⟨some "VAGUE", some (1 / 2), some "Too vague.", some true, some "F0"⟩,
   emptyParsedValidation, false, emptyAuthParsed, false, [], false, false, none⟩

/-- C6: evaluation at the failing input. The first answer to pre-interview
question "Q0" is validated as needing clarification, so the follow-up "F0"
is emitted and the attempt counter goes to 1 — but the answered record was
appended anyway, so the stored-answer count (which `len(pre_interview_answers)`
makes the next call's question index) is already 1, and the answer given to
that clarification follow-up is validated against "Q1", a question the
candidate was never asked: the session does not remain on the same
pre-interview question during clarification. -/
theorem C6_clarification_advances_question_index :
    (processUserAnswer preValidationState "A0" clarifyingOracle).toOption.map
        (fun r => (r.2.1, r.1.validation_attempts, r.1.pre_interview_answers.length)) =
      some ("F0", 1, 1) ∧
    ((processUserAnswer preValidationState "A0" clarifyingOracle).toOption.bind
        (fun r => (processUserAnswer r.1 "answer to F0" clarifyingOracle).toOption)).map
        (fun r => (r.1.pre_interview_answers.getD 1 ⟨"", "", emptyParsedValidation⟩).question) =
      some "Q1" ∧
    preValidationState.pre_interview_questions.getD 0 "" = "Q0" :=
  ⟨rfl, rfl, rfl⟩

/-! ### C3 -/

/-- `_get_time_status` emits the "TIME_UP_SIGNAL" warning exactly when no
minutes remain, the 5- and 2-minute warnings were already sent, and the
time-up warning was not. -/
theorem timeUp_mem_warnings (e d : Nat) (s : TimeWarningsSent)
    (hd : d ≤ e) (h5 : s.sent5 = true) (h2 : s.sent2 = true) (hUp : s.sentUp = false) :
    "TIME_UP_SIGNAL" ∈ (getTimeStatus e d s).1.warnings := by
  have hr : d - e = 0 := Nat.sub_eq_zero_of_le hd
  simp only [getTimeStatus]
  rw [if_neg (by simp [h5]), if_neg (by simp [h2]), if_pos (by simp [hr, hUp])]
  simp

/-- With at least one minute remaining, no call of `_get_time_status` emits
the "TIME_UP_SIGNAL" warning. -/
theorem timeUp_not_mem_warnings (e d : Nat) (s : TimeWarningsSent) (h : e < d) :
    "TIME_UP_SIGNAL" ∉ (getTimeStatus e d s).1.warnings := by
  have h0 : 0 < d - e := Nat.sub_pos_of_lt h
  simp only [getTimeStatus]
  split_ifs with h1 h2 h3
  · simp
  · simp
  · omega
  · simp

/-- C3 counterexample: a pre-validation turn with the termination flag
clear, remaining minutes equal to 0 (elapsed = duration = 10) and no time
warning sent yet. The warning chain emits "5 minutes remaining" instead of
"TIME_UP_SIGNAL", so the call neither sets the termination flag nor returns
the terminal sentinel — it advances to pre-interview question "Q1". -/
theorem C3_counterexample :
    (getTimeStatus 10 10 ⟨false, false, false⟩).1.remaining_minutes = 0 ∧
    (processUserAnswer
        { preValidationState with interview_duration_minutes := 10 }
        "my answer"
        { parseFailureOracle with elapsed_minutes := 10 }).toOption.map
        (fun r => (r.1.interview_ended, r.2.1)) =
      some (false, "Thank you. Next question: Q1") := by
  constructor
  · rfl
  · rfl

/-- C3 amended: the time-boxing override fires on the call exactly when the
recomputed time status newly emits the "TIME_UP_SIGNAL" warning — remaining
minutes ≤ 0 with the 5-minute and 2-minute warnings already sent and the
time-up warning not yet sent. Then, in every phase, the termination flag is
set and the terminal sentinel returned. -/
theorem C3_time_up_terminates (st : BotState) (answer : String) (o : Oracle)
    (hEnd : st.interview_ended = false) (hAns : answer ≠ "TIME_UP_SIGNAL")
    (hT : st.interview_duration_minutes ≤ o.elapsed_minutes)
    (h5 : st.time_warnings_sent.sent5 = true)
    (h2 : st.time_warnings_sent.sent2 = true)
    (hUp : st.time_warnings_sent.sentUp = false) :
    (processUserAnswer st answer o).toOption.map
        (fun r => (r.1.interview_ended, r.2.1, r.2.2)) =
      some (true, "END_OF_INTERVIEW", noCalls) := by
  have hmem := timeUp_mem_warnings o.elapsed_minutes st.interview_duration_minutes
    st.time_warnings_sent hT h5 h2 hUp
  simp only [processUserAnswer]
  rw [if_neg (by simp [hEnd, hAns])]
  simp only [addToHistory_interview_duration_minutes, addToHistory_time_warnings_sent]
  rw [if_pos hmem]
  rfl

/-- A concrete main-interview state whose earlier time warnings were already
sent (a session that ran past its 5- and 2-minute warnings). -/
def lateMainState : BotState :=
  ⟨10, ⟨true, true, false⟩, [], [], "Databases", "Tell me about indexing.", false,
   ["Communication"], [], 2, [], [], ValidationState.completed, 0, 2, [], none, 0, false⟩

theorem C3_time_up_terminates_witness :
    lateMainState.interview_ended = false ∧
    lateMainState.interview_duration_minutes ≤ 10 ∧
    (processUserAnswer lateMainState "an answer"
        { parseFailureOracle with elapsed_minutes := 10 }).toOption.map
        (fun r => (r.1.interview_ended, r.2.1, r.2.2)) =
      some (true, "END_OF_INTERVIEW", noCalls) :=
  ⟨rfl, by decide,
   C3_time_up_terminates lateMainState "an answer"
     { parseFailureOracle with elapsed_minutes := 10 }
     rfl (by decide) (by decide) rfl rfl rfl⟩

/-! ### C2 -/

/-- C2: in `_generate_next_question`, (a) elapsed ≥ total duration forces
termination with the closing line, before any model output is consulted;
(b) fewer than 2 remaining minutes force the termination flag whatever the
model output or exception; (c) with exactly 1 minute remaining, a non-END
model decision (e.g. DEEPEN) is overridden by the caller to END_INTERVIEW
with the canned closing line. -/
theorem C2_caller_forces_end (st : BotState) (o : Oracle) :
    (st.interview_duration_minutes ≤ o.elapsed_minutes →
      (generateNextQuestion st o).1.interview_ended = true ∧
      (generateNextQuestion st o).2 =
        "Thank you for your time. We've reached the end of our allocated time. This concludes our interview.") ∧
    (st.interview_duration_minutes - o.elapsed_minutes < 2 →
      (generateNextQuestion st o).1.interview_ended = true) ∧
    (∀ parsed : NextQParsed,
      st.interview_duration_minutes - o.elapsed_minutes = 1 →
      o.genRaises = false → o.nextQParsed = some parsed →
      pyToUpper (parsed.decision.getD "END_INTERVIEW") ≠ "END_INTERVIEW" →
      (generateNextQuestion st o).1.interview_ended = true ∧
      (generateNextQuestion st o).2 =
        "We're nearly out of time. Thank you for this discussion.") := by
  refine ⟨?_, ?_, ?_⟩
  · intro h
    have hr : st.interview_duration_minutes - o.elapsed_minutes = 0 :=
      Nat.sub_eq_zero_of_le h
    constructor <;>
      simp [generateNextQuestion, getTimeStatus_fst_remaining, hr]
  · intro h
    have h01 : st.interview_duration_minutes - o.elapsed_minutes = 0 ∨
        st.interview_duration_minutes - o.elapsed_minutes = 1 := by omega
    rcases h01 with h0 | h1
    · simp [generateNextQuestion, getTimeStatus_fst_remaining, h0]
    · rcases hq : o.nextQParsed with _ | parsed
      · by_cases hg : o.genRaises <;>
          simp [generateNextQuestion, getTimeStatus_fst_remaining, h1, hq, hg]
      · by_cases hg : o.genRaises
        · simp [generateNextQuestion, getTimeStatus_fst_remaining, h1, hg]
        · by_cases hd : pyToUpper (parsed.decision.getD "END_INTERVIEW") = "END_INTERVIEW" <;>
            simp [generateNextQuestion, getTimeStatus_fst_remaining, h1, hq, hg, hd]
  · intro parsed h1 hg hq hd
    constructor <;>
      simp [generateNextQuestion, getTimeStatus_fst_remaining, h1, hg, hq, hd]

/-- A main-interview state with a 10-minute budget. -/
def tenMinuteState : BotState :=
  ⟨10, ⟨true, true, false⟩, [], [], "APIs", "How do you version an API?", false,
   [], [], 1, [], [], ValidationState.completed, 0, 2, [], none, 0, false⟩

/-- Oracle whose refinement model answers DEEPEN with one minute left. -/
def deepenOracle : Oracle :=
  ⟨9, emptyParsedValidation, emptyParsedValidation, false, emptyAuthParsed,
   false, [], false, false, some ⟨some "DEEPEN", some "And how would you shard it?", none⟩⟩

theorem C2_caller_forces_end_witness :
    tenMinuteState.interview_duration_minutes - deepenOracle.elapsed_minutes = 1 ∧
    (generateNextQuestion tenMinuteState deepenOracle).1.interview_ended = true ∧
    (generateNextQuestion tenMinuteState deepenOracle).2 =
      "We're nearly out of time. Thank you for this discussion." :=
  ⟨rfl,
   (C2_caller_forces_end tenMinuteState deepenOracle).2.2
     ⟨some "DEEPEN", some "And how would you shard it?", none⟩ rfl rfl rfl (by decide)⟩

/-! ### C7 -/

/-- C7: a main-interview turn (flag clear, pre-validation finished,
verification over, time not exhausted) whose utterance matches the skip
lexical pattern performs zero authenticity, competency-assessment and
difficulty-adjustment calls, and goes straight to one next-question
generation. -/
theorem C7_skip_bypasses_assessment (st : BotState) (answer : String) (o : Oracle)
    (hEnd : st.interview_ended = false) (hAns : answer ≠ "TIME_UP_SIGNAL")
    (hVal : st.validation_state ≠ ValidationState.in_progress)
    (hVer : st.in_verification = false)
    (hTime : o.elapsed_minutes < st.interview_duration_minutes)
    (hSkip : checkSkipAnswer answer = true) :
    (processUserAnswer st answer o).toOption.map (fun r => r.2.2) =
      some { noCalls with nextQuestionCalls := 1 } := by
  have hmem := timeUp_not_mem_warnings o.elapsed_minutes st.interview_duration_minutes
    st.time_warnings_sent hTime
  simp only [processUserAnswer]
  rw [if_neg (by simp [hEnd, hAns])]
  simp only [addToHistory_interview_duration_minutes, addToHistory_time_warnings_sent,
    addToHistory_validation_state, addToHistory_in_verification]
  rw [if_neg hmem, if_neg hVal, if_neg (by simp [hVer]), if_pos hSkip]
  rfl

theorem C7_skip_bypasses_assessment_witness :
    checkSkipAnswer "I don't know" = true ∧
    (processUserAnswer tenMinuteState "I don't know"
        { parseFailureOracle with
            nextQParsed := some ⟨some "NEW_TOPIC", some "Tell me about caching.", some "Caching"⟩ }).toOption.map
        (fun r => r.2.2) =
      some { noCalls with nextQuestionCalls := 1 } :=
  ⟨by decide,
   C7_skip_bypasses_assessment tenMinuteState "I don't know"
     { parseFailureOracle with
         nextQParsed := some ⟨some "NEW_TOPIC", some "Tell me about caching.", some "Caching"⟩ }
     rfl (by decide) (by decide) rfl (by decide) (by decide)⟩

/-! ### C4 -/

theorem insertIfAbsent_mem {l : List String} {a x : String}
    (h : x ∈ insertIfAbsent l a) : x ∈ l ∨ x = a := by
  unfold insertIfAbsent at h
  split_ifs at h
  · exact Or.inl h
  · rcases List.mem_append.mp h with h | h
    · exact Or.inl h
    · exact Or.inr (by simpa using h)

theorem assessStep_mem {remaining acc : List String} {it : AssessedItem} {x : String}
    (h : x ∈ assessStep remaining acc it) : x ∈ acc ∨ x ∈ remaining := by
  cases it with
  | dict c =>
      cases c with
      | none => exact Or.inl h
      | some name =>
          simp only [assessStep] at h
          split_ifs at h with hm
          · rcases insertIfAbsent_mem h with h | h
            · exact Or.inl h
            · exact Or.inr (h ▸ hm)
          · exact Or.inl h
  | str s =>
      simp only [assessStep] at h
      split_ifs at h with hm
      · rcases insertIfAbsent_mem h with h | h
        · exact Or.inl h
        · exact Or.inr (h ▸ hm)
      · exact Or.inl h
  | other => exact Or.inl h

theorem assessFold_mem {remaining : List String} {items : List AssessedItem}
    {completed : List String} {x : String}
    (h : x ∈ assessFold remaining completed items) : x ∈ completed ∨ x ∈ remaining := by
  induction items generalizing completed with
  | nil => exact Or.inl h
  | cons it rest ih =>
      have h' : x ∈ assessFold remaining (assessStep remaining completed it) rest := h
      rcases ih h' with hc | hr
      · rcases assessStep_mem hc with hc | hr
        · exact Or.inl hc
        · exact Or.inr hr
      · exact Or.inr hr

/-- The coverage-assessment update only adds names that are members of the
remaining (target-minus-completed) competencies, whatever the model
returned. -/
theorem assessCompetencyCoverage_mem (st : BotState) (o : Oracle) {x : String}
    (h : x ∈ (assessCompetencyCoverage st o).completed_competencies) :
    x ∈ st.completed_competencies ∨
      (x ∈ st.target_competencies ∧ x ∉ st.completed_competencies) := by
  simp only [assessCompetencyCoverage] at h
  split_ifs at h
  · exact Or.inl h
  · exact Or.inl h
  · rcases assessFold_mem h with hc | hr
    · exact Or.inl hc
    · have hm := List.mem_filter.mp hr
      refine Or.inr ⟨List.mem_dedup.mp hm.1, ?_⟩
      simpa using hm.2

theorem assessCompetencyCoverage_target (st : BotState) (o : Oracle) :
    (assessCompetencyCoverage st o).target_competencies = st.target_competencies := by
  simp only [assessCompetencyCoverage]
  split_ifs <;> rfl

theorem generateNextQuestion_keeps (st : BotState) (o : Oracle) :
    (generateNextQuestion st o).1.target_competencies = st.target_competencies ∧
    (generateNextQuestion st o).1.completed_competencies = st.completed_competencies := by
  rcases hq : o.nextQParsed with _ | parsed <;>
    · simp only [generateNextQuestion, hq]
      split_ifs <;> simp

theorem generateNextQuestionWithTimeStatus_keeps (st : BotState) (o : Oracle)
    (ts : TimeStatus) :
    (generateNextQuestionWithTimeStatus st o ts).1.target_competencies = st.target_competencies ∧
    (generateNextQuestionWithTimeStatus st o ts).1.completed_competencies = st.completed_competencies := by
  simp only [generateNextQuestionWithTimeStatus]
  split_ifs <;> exact generateNextQuestion_keeps st o

theorem proceedToMainInterview_keeps (st : BotState) (o : Oracle) :
    (proceedToMainInterview st o).1.target_competencies = st.target_competencies ∧
    (proceedToMainInterview st o).1.completed_competencies = st.completed_competencies := by
  simp only [proceedToMainInterview]
  split_ifs
  · simp
  · constructor <;> simp [generateNextQuestion_keeps]

theorem handlePreInterviewValidation_keeps (st : BotState) (a : String) (o : Oracle) :
    (handlePreInterviewValidation st a o).1.target_competencies = st.target_competencies ∧
    (handlePreInterviewValidation st a o).1.completed_competencies = st.completed_competencies := by
  simp only [handlePreInterviewValidation]
  split_ifs <;> constructor <;>
    simp [proceedToMainInterview_keeps]

theorem handleVerificationPhase_keeps (st : BotState) (a : String) (o : Oracle)
    (r : BotState × String × Trace) (h : handleVerificationPhase st a o = Except.ok r) :
    r.1.target_competencies = st.target_competencies ∧
    r.1.completed_competencies = st.completed_competencies := by
  unfold handleVerificationPhase at h
  rcases hv : st.verification_answers with _ | answers <;> rw [hv] at h
  · simp at h
  · simp only [] at h
    split_ifs at h <;>
      · rw [Except.ok.injEq] at h
        subst h
        constructor <;> simp [generateNextQuestion_keeps]

/-- `process_user_answer` preserves the completed ⊆ target invariant. -/
theorem processUserAnswer_preserves_subset (st : BotState) (a : String) (o : Oracle)
    (r : BotState × String × Trace) (hok : processUserAnswer st a o = Except.ok r)
    (hsub : st.completed_competencies ⊆ st.target_competencies) :
    r.1.completed_competencies ⊆ r.1.target_competencies := by
  simp only [processUserAnswer] at hok
  split_ifs at hok
  · rw [Except.ok.injEq] at hok
    subst hok
    simpa using hsub
  · rw [Except.ok.injEq] at hok
    subst hok
    simpa using hsub
  · rw [Except.ok.injEq] at hok
    subst hok
    rw [(handlePreInterviewValidation_keeps _ _ _).1,
      (handlePreInterviewValidation_keeps _ _ _).2]
    simpa using hsub
  · have hk := handleVerificationPhase_keeps _ _ _ _ hok
    rw [hk.1, hk.2]
    simpa using hsub
  · rw [Except.ok.injEq] at hok
    subst hok
    rw [(generateNextQuestionWithTimeStatus_keeps _ _ _).1,
      (generateNextQuestionWithTimeStatus_keeps _ _ _).2]
    simpa using hsub
  · rw [Except.ok.injEq] at hok
    subst hok
    intro x hx
    simp only [addToHistory_completed_competencies, addToHistory_target_competencies] at hx ⊢
    rw [assessCompetencyCoverage_target]
    rcases assessCompetencyCoverage_mem _ _ hx with hc | ht
    · simp only [addToHistory_completed_competencies] at hc
      have := hsub hc
      simpa using this
    · exact ht.1
  · rw [Except.ok.injEq] at hok
    subst hok
    intro x hx
    rw [(generateNextQuestionWithTimeStatus_keeps _ _ _).2] at hx
    rw [(generateNextQuestionWithTimeStatus_keeps _ _ _).1]
    simp only [] at hx ⊢
    rw [assessCompetencyCoverage_target]
    rcases assessCompetencyCoverage_mem _ _ hx with hc | ht
    · simp only [addToHistory_completed_competencies] at hc
      have := hsub hc
      simpa using this
    · exact ht.1

theorem runSession_preserves_subset (turns : List (String × Oracle)) (st : BotState)
    (h : st.completed_competencies ⊆ st.target_competencies) :
    (runSession st turns).completed_competencies ⊆
      (runSession st turns).target_competencies := by
  induction turns generalizing st with
  | nil => exact h
  | cons t rest ih =>
      have hstep : (match processUserAnswer st t.1 t.2 with
          | Except.ok r => r.1
          | Except.error _ => st).completed_competencies ⊆
          (match processUserAnswer st t.1 t.2 with
          | Except.ok r => r.1
          | Except.error _ => st).target_competencies := by
        rcases hok : processUserAnswer st t.1 t.2 with e | r
        · simpa using h
        · simpa using processUserAnswer_preserves_subset st t.1 t.2 r hok h
      exact ih _ hstep

/-- C4: the completed-competency set stays a subset of the target list in
every reachable state: the coverage-assessment step only adds names that
are members of the remaining (target minus completed) competencies — under
arbitrary, even malformed, model output — and every `process_user_answer`
turn, hence every finite session run, preserves completed ⊆ target. -/
theorem C4_completed_subset_invariant :
    (∀ (st : BotState) (o : Oracle) (x : String),
      x ∈ (assessCompetencyCoverage st o).completed_competencies →
      x ∈ st.completed_competencies ∨
        (x ∈ st.target_competencies ∧ x ∉ st.completed_competencies)) ∧
    (∀ (st : BotState) (a : String) (o : Oracle) (r : BotState × String × Trace),
      processUserAnswer st a o = Except.ok r →
      st.completed_competencies ⊆ st.target_competencies →
      r.1.completed_competencies ⊆ r.1.target_competencies) ∧
    (∀ (st : BotState) (turns : List (String × Oracle)),
      st.completed_competencies ⊆ st.target_competencies →
      (runSession st turns).completed_competencies ⊆
        (runSession st turns).target_competencies) :=
  ⟨fun st o _ h => assessCompetencyCoverage_mem st o h,
   fun st a o r hok hsub => processUserAnswer_preserves_subset st a o r hok hsub,
   fun st turns hsub => runSession_preserves_subset turns st hsub⟩

/-- A fresh main-interview session targeting two competencies. -/
def competencyWitnessState : BotState :=
  ⟨30, ⟨false, false, false⟩, [], [], "Opening", "Describe a project.", false,
   ["Communication", "Teamwork"], [], 1, [], [], ValidationState.completed, 0, 2,
   [], none, 0, false⟩

/-- Oracle whose assessment output mixes valid, off-list and malformed
items. -/
def competencyWitnessOracle : Oracle :=
  ⟨1, emptyParsedValidation, emptyParsedValidation, false, emptyAuthParsed, false,
   [AssessedItem.str "Communication", AssessedItem.str "Leadership",
    AssessedItem.dict (some "Teamwork"), AssessedItem.dict none, AssessedItem.other],
   false, false, some ⟨some "NEW_TOPIC", some "Tell me about your team.", none⟩⟩

theorem C4_completed_subset_invariant_witness :
    competencyWitnessState.completed_competencies ⊆
      competencyWitnessState.target_competencies ∧
    (runSession competencyWitnessState
        [("In my last project I coordinated the team.", competencyWitnessOracle)]).completed_competencies ⊆
      (runSession competencyWitnessState
        [("In my last project I coordinated the team.", competencyWitnessOracle)]).target_competencies :=
  ⟨List.nil_subset _,
   C4_completed_subset_invariant.2.2 competencyWitnessState
     [("In my last project I coordinated the team.", competencyWitnessOracle)]
     (List.nil_subset _)⟩

end InterviewBotSpec
